import Mathlib

/-!
Shallow embedding of the yookassa-rs client (src/lib.rs) and proofs about its
request pipeline, response classifier, and data model.

Modelling conventions:
* JSON documents are the inductive `Json`; serde_json values are embedded as
  `Json` (numbers as `Int`: none of the typed schemas below carries a
  fractional numeric field).
* serde `Serialize`/`Deserialize` derive-impls are embedded as `toJson` /
  `fromJson` functions per struct, field for field, mirroring
  `#[serde(skip_serializing_if = "Option::is_none")]`, `#[serde(rename)]` and
  `#[serde(rename_all = "snake_case")]` attributes from the source.
* `serde_json::from_str` is embedded as a character-level JSON text parser
  (`parseJsonText`) followed by the typed decoder.
* The HTTP layer: a built (not yet sent) request is `HttpRequest`; a completed
  transport response is `HttpResponse` with `body : Except Unit String`
  (reading the body can fail).  `Uuid::new_v4().to_string()` is a fresh random
  value, embedded as an explicit `idempotency_key : String` argument to
  `send_request` and to each mutating operation.
-/

inductive Json where
  | null : Json
  | bool : Bool → Json
  | num : Int → Json
  | str : String → Json
  | arr : List Json → Json
  | obj : List (String × Json) → Json

def Json.isNull : Json → Bool
  | Json.null => true
  | _ => false

def escChar (c : Char) : String :=
  if c = '"' then "\\\""
  else if c = '\\' then "\\\\"
  else if c = '\n' then "\\n"
  else if c = '\t' then "\\t"
  else if c = '\r' then "\\r"
  else String.singleton c

def renderString (s : String) : String :=
  "\"" ++ String.join (s.data.map escChar) ++ "\""

mutual

def Json.render : Json → String
  | Json.null => "null"
  | Json.bool true => "true"
  | Json.bool false => "false"
  | Json.num n => toString n
  | Json.str s => renderString s
  | Json.arr xs => "[" ++ String.intercalate "," (Json.renderList xs) ++ "]"
  | Json.obj l => "\x7b" ++ String.intercalate "," (Json.renderFields l) ++ "\x7d"

def Json.renderList : List Json → List String
  | [] => []
  | j :: js => Json.render j :: Json.renderList js

def Json.renderFields : List (String × Json) → List String
  | [] => []
  | (k, j) :: fs => (renderString k ++ ":" ++ Json.render j) :: Json.renderFields fs

end

/-! ## JSON text parsing (embedding of `serde_json::from_str`'s lexical layer) -/

def isJsonWs (c : Char) : Bool :=
  c = ' ' || c = '\n' || c = '\t' || c = '\r'

def skipWs : List Char → List Char
  | [] => []
  | c :: cs => if isJsonWs c then skipWs cs else c :: cs

def hexVal (c : Char) : Option Nat :=
  if '0' ≤ c ∧ c ≤ '9' then some (c.toNat - 48)
  else if 'a' ≤ c ∧ c ≤ 'f' then some (c.toNat - 87)
  else if 'A' ≤ c ∧ c ≤ 'F' then some (c.toNat - 55)
  else none

def escDecode (c : Char) : Option Char :=
  if c = '"' then some '"'
  else if c = '\\' then some '\\'
  else if c = '/' then some '/'
  else if c = 'n' then some '\n'
  else if c = 't' then some '\t'
  else if c = 'r' then some '\r'
  else if c = 'b' then some (Char.ofNat 8)
  else if c = 'f' then some (Char.ofNat 12)
  else none

/-- Parse the remainder of a JSON string literal (the opening quote already
consumed), accumulating decoded characters in reverse in `acc`. -/
def parseStrAux : List Char → List Char → Option (String × List Char)
  | _, [] => none
  | acc, '\\' :: 'u' :: a :: b :: c :: d :: cs =>
      match hexVal a, hexVal b, hexVal c, hexVal d with
      | some ha, some hb, some hc, some hd =>
          parseStrAux (Char.ofNat (((ha * 16 + hb) * 16 + hc) * 16 + hd) :: acc) cs
      | _, _, _, _ => none
  | acc, '\\' :: e :: cs =>
      match escDecode e with
      | some ch => parseStrAux (ch :: acc) cs
      | none => none
  | acc, c :: cs =>
      if c = '"' then some (String.mk acc.reverse, cs)
      else parseStrAux (c :: acc) cs

def takeDigits : List Char → List Char × List Char
  | [] => ([], [])
  | c :: cs =>
      if c.isDigit then
        let (ds, rest) := takeDigits cs
        (c :: ds, rest)
      else ([], c :: cs)

def digitsToNat (ds : List Char) : Nat :=
  ds.foldl (fun n c => n * 10 + (c.toNat - 48)) 0

/-- Consume a fractional part `.digits`, if present. -/
def consumeFrac : List Char → Option (List Char)
  | '.' :: r =>
      let (fs, r2) := takeDigits r
      if fs.isEmpty then none else some r2
  | cs => some cs

/-- Consume an exponent part `e[+-]digits`, if present. -/
def consumeExp : List Char → Option (List Char)
  | c :: r =>
      if c = 'e' ∨ c = 'E' then
        let r' := match r with
          | s :: r2 => if s = '+' ∨ s = '-' then r2 else s :: r2
          | [] => []
        let (es, r2) := takeDigits r'
        if es.isEmpty then none else some r2
      else some (c :: r)
  | [] => some []

/-- Parse a JSON number.  The integral part is kept exactly; a fractional or
exponent part is consumed but not reflected in the `Int` value (no schema
decoded in this development reads a non-integral number). -/
def parseNumber (cs : List Char) : Option (Int × List Char) :=
  let (neg, cs1) := match cs with
    | '-' :: r => (true, r)
    | _ => (false, cs)
  let (ds, cs2) := takeDigits cs1
  if ds.isEmpty then none
  else
    match consumeFrac cs2 with
    | none => none
    | some cs3 =>
        match consumeExp cs3 with
        | none => none
        | some cs4 =>
            let n : Int := Int.ofNat (digitsToNat ds)
            some (if neg then -n else n, cs4)

def lbraceChar : Char := Char.ofNat 123

def rbraceChar : Char := Char.ofNat 125

mutual

def parseVal : Nat → List Char → Option (Json × List Char)
  | 0, _ => none
  | fuel + 1, cs =>
      match skipWs cs with
      | 'n' :: 'u' :: 'l' :: 'l' :: rest => some (Json.null, rest)
      | 't' :: 'r' :: 'u' :: 'e' :: rest => some (Json.bool true, rest)
      | 'f' :: 'a' :: 'l' :: 's' :: 'e' :: rest => some (Json.bool false, rest)
      | '"' :: rest =>
          match parseStrAux [] rest with
          | some (s, r) => some (Json.str s, r)
          | none => none
      | c :: rest =>
          if c = lbraceChar then
            match skipWs rest with
            | c2 :: r2 =>
                if c2 = rbraceChar then some (Json.obj [], r2)
                else
                  match parseMembers fuel (c2 :: r2) with
                  | some (l, r3) => some (Json.obj l, r3)
                  | none => none
            | [] => none
          else if c = '[' then
            match skipWs rest with
            | ']' :: r2 => some (Json.arr [], r2)
            | r2 =>
                match parseItems fuel r2 with
                | some (xs, r3) => some (Json.arr xs, r3)
                | none => none
          else if c = '-' ∨ c.isDigit then
            match parseNumber (c :: rest) with
            | some (n, r2) => some (Json.num n, r2)
            | none => none
          else none
      | [] => none

def parseItems : Nat → List Char → Option (List Json × List Char)
  | 0, _ => none
  | fuel + 1, cs =>
      match parseVal fuel cs with
      | some (j, r) =>
          match skipWs r with
          | ',' :: r2 =>
              match parseItems fuel r2 with
              | some (xs, r3) => some (j :: xs, r3)
              | none => none
          | ']' :: r2 => some ([j], r2)
          | _ => none
      | none => none

def parseMembers : Nat → List Char → Option (List (String × Json) × List Char)
  | 0, _ => none
  | fuel + 1, cs =>
      match skipWs cs with
      | '"' :: r =>
          match parseStrAux [] r with
          | some (k, r2) =>
              match skipWs r2 with
              | ':' :: r3 =>
                  match parseVal fuel r3 with
                  | some (v, r4) =>
                      match skipWs r4 with
                      | ',' :: r5 =>
                          match parseMembers fuel r5 with
                          | some (l, r6) => some ((k, v) :: l, r6)
                          | none => none
                      | c :: r5 =>
                          if c = rbraceChar then some ([(k, v)], r5) else none
                      | [] => none
                  | none => none
              | _ => none
          | none => none
      | _ => none

end

/-- Embedding of `serde_json::from_str::<serde_json::Value>`: parse a complete
JSON document; trailing input other than whitespace is an error. -/
def parseJsonText (s : String) : Option Json :=
  match parseVal (4 * s.length + 4) s.data with
  | some (j, rest) => if skipWs rest = [] then some j else none
  | none => none

/-! ## Typed decoding combinators (embedding of derived `Deserialize` impls).

A derived serde struct deserializer reads the fields of a JSON object by name
(order-independent), errors on a missing non-`Option` field, treats a missing
or `null` `Option` field as `None`, and ignores unknown fields. -/

def asStr : Json → Except String String
  | Json.str s => .ok s
  | _ => .error "invalid type: expected a string"

def asBool : Json → Except String Bool
  | Json.bool b => .ok b
  | _ => .error "invalid type: expected a boolean"

def asInt : Json → Except String Int
  | Json.num n => .ok n
  | _ => .error "invalid type: expected an integer"

/-- Read a required struct field: missing key is a missing-field error. -/
def reqField (l : List (String × Json)) (k : String) (dec : Json → Except String α) :
    Except String α :=
  match l.lookup k with
  | none => .error ("missing field " ++ k)
  | some j => dec j

def decodeOptVal (o : Option Json) (dec : Json → Except String α) :
    Except String (Option α) :=
  match o with
  | none => .ok none
  | some j => if j.isNull then .ok none else (dec j).map some

/-- Read an `Option` struct field: missing key or `null` value is `None`. -/
def optField (l : List (String × Json)) (k : String) (dec : Json → Except String α) :
    Except String (Option α) :=
  decodeOptVal (l.lookup k) dec

def decodeListAux (dec : Json → Except String α) : List Json → Except String (List α)
  | [] => .ok []
  | j :: js => do
      let a ← dec j
      let as ← decodeListAux dec js
      .ok (a :: as)

/-- Decode a JSON array elementwise (embedding of `Vec<T>` deserialization). -/
def decodeList (dec : Json → Except String α) : Json → Except String (List α)
  | Json.arr xs => decodeListAux dec xs
  | _ => .error "invalid type: expected an array"

/-- The serialized entry of an `Option` field under
`#[serde(skip_serializing_if = "Option::is_none")]`: absent when `None`. -/
def optEntry (k : String) (o : Option Json) : List (String × Json) :=
  match o with
  | none => []
  | some v => [(k, v)]

def Json.hasKey : Json → String → Bool
  | Json.obj l, k => (l.lookup k).isSome
  | _, _ => false

@[simp] theorem lookup_optEntry_ne (k k' : String) (o : Option Json)
    (rest : List (String × Json)) (h : (k == k') = false) :
    List.lookup k (optEntry k' o ++ rest) = List.lookup k rest := by
  cases o <;> simp [optEntry, List.lookup, h]

@[simp] theorem lookup_optEntry_self (k : String) (o : Option Json)
    (rest : List (String × Json)) (h : List.lookup k rest = none) :
    List.lookup k (optEntry k o ++ rest) = o := by
  cases o <;> simp [optEntry, List.lookup, h]

@[simp] theorem lookup_optEntry_ne1 (k k' : String) (o : Option Json)
    (h : (k == k') = false) :
    List.lookup k (optEntry k' o) = none := by
  cases o <;> simp [optEntry, List.lookup, h]

@[simp] theorem lookup_optEntry_self1 (k : String) (o : Option Json) :
    List.lookup k (optEntry k o) = o := by
  cases o <;> simp [optEntry, List.lookup]

/-- Generic round-trip step for an `Option` field whose encoder never emits
`null`. -/
theorem decodeOptVal_enc {α : Type} (enc : α → Json) (dec : Json → Except String α)
    (hnn : ∀ a, (enc a).isNull = false) (hrt : ∀ a, dec (enc a) = .ok a)
    (o : Option α) : decodeOptVal (o.map enc) dec = .ok o := by
  cases o with
  | none => rfl
  | some a => simp [decodeOptVal, hnn a, hrt a, Except.map]

@[simp] theorem decodeOptVal_str (o : Option String) :
    decodeOptVal (o.map Json.str) asStr = .ok o :=
  decodeOptVal_enc Json.str asStr (fun _ => rfl) (fun _ => rfl) o

@[simp] theorem decodeOptVal_bool (o : Option Bool) :
    decodeOptVal (o.map Json.bool) asBool = .ok o :=
  decodeOptVal_enc Json.bool asBool (fun _ => rfl) (fun _ => rfl) o

@[simp] theorem decodeOptVal_int (o : Option Int) :
    decodeOptVal (o.map Json.num) asInt = .ok o :=
  decodeOptVal_enc Json.num asInt (fun _ => rfl) (fun _ => rfl) o

/-! ## Error model (embedding of `YooKassaError` and `YooKassaApiError`) -/

/-- Body of a structured API error response
(`{type, id, code, description, parameter?}`). -/
structure YooKassaApiError where
  error_type : String
  id : String
  code : String
  description : String
  parameter : Option String

def YooKassaApiError.fromJson : Json → Except String YooKassaApiError
  | Json.obj l => do
      let error_type ← reqField l "type" asStr
      let id ← reqField l "id" asStr
      let code ← reqField l "code" asStr
      let description ← reqField l "description" asStr
      let parameter ← optField l "parameter" asStr
      .ok ⟨error_type, id, code, description, parameter⟩
  | _ => .error "invalid type: expected an object"

/-- The error enum of the client.  `Reqwest` is the network/HTTP transport
error (source: "Ошибка сети или HTTP запроса"), `Serde` the JSON
serialization/deserialization error (source: "Ошибка
сериализации/десериализации JSON"), `ApiError` a non-2xx API response,
`MissingField` a required field absent from a response.  Opaque foreign error
payloads (`reqwest::Error`, `serde_json::Error`, …) are carried as their
message strings. -/
inductive YooKassaError where
  | Reqwest : String → YooKassaError
  | Serde : String → YooKassaError
  | ApiError : Nat → String → Option YooKassaApiError → YooKassaError
  | UrlParse : String → YooKassaError
  | InvalidHeaderValue : String → YooKassaError
  | MissingField : String → YooKassaError

/-! ## Response-side data model -/

/-- `PaymentStatus`, a closed four-value enumeration
(`#[serde(rename_all = "snake_case")]`). -/
inductive PaymentStatus where
  | Pending : PaymentStatus
  | WaitingForCapture : PaymentStatus
  | Succeeded : PaymentStatus
  | Canceled : PaymentStatus
deriving DecidableEq

/-- Deserialization of `PaymentStatus`: exactly the four snake_case wire
strings are accepted; anything else is a decode error. -/
def PaymentStatus.fromJson : Json → Except String PaymentStatus
  | Json.str s =>
      if s = "pending" then .ok .Pending
      else if s = "waiting_for_capture" then .ok .WaitingForCapture
      else if s = "succeeded" then .ok .Succeeded
      else if s = "canceled" then .ok .Canceled
      else .error ("unknown variant " ++ s)
  | _ => .error "invalid type: expected a string"

structure Amount where
  value : String
  currency : String

def Amount.toJson (a : Amount) : Json :=
  Json.obj [("value", Json.str a.value), ("currency", Json.str a.currency)]

def Amount.fromJson : Json → Except String Amount
  | Json.obj l => do
      let value ← reqField l "value" asStr
      let currency ← reqField l "currency" asStr
      .ok ⟨value, currency⟩
  | _ => .error "invalid type: expected an object"

structure Recipient where
  account_id : String
  gateway_id : String

def Recipient.fromJson : Json → Except String Recipient
  | Json.obj l => do
      let account_id ← reqField l "account_id" asStr
      let gateway_id ← reqField l "gateway_id" asStr
      .ok ⟨account_id, gateway_id⟩
  | _ => .error "invalid type: expected an object"

structure ConfirmationResponse where
  confirmation_type : String
  confirmation_url : Option String
  return_url : Option String
  enforce : Option Bool
  locale : Option String
  confirmation_data : Option String

def ConfirmationResponse.fromJson : Json → Except String ConfirmationResponse
  | Json.obj l => do
      let confirmation_type ← reqField l "type" asStr
      let confirmation_url ← optField l "confirmation_url" asStr
      let return_url ← optField l "return_url" asStr
      let enforce ← optField l "enforce" asBool
      let locale ← optField l "locale" asStr
      let confirmation_data ← optField l "confirmation_data" asStr
      .ok ⟨confirmation_type, confirmation_url, return_url, enforce, locale, confirmation_data⟩
  | _ => .error "invalid type: expected an object"

structure CardProduct where
  code : Option String
  name : Option String

def CardProduct.fromJson : Json → Except String CardProduct
  | Json.obj l => do
      let code ← optField l "code" asStr
      let name ← optField l "name" asStr
      .ok ⟨code, name⟩
  | _ => .error "invalid type: expected an object"

structure CardDetails where
  first6 : Option String
  last4 : String
  expiry_year : String
  expiry_month : String
  card_type : String
  issuer_country : Option String
  issuer_name : Option String
  source : Option String
  card_product : Option CardProduct

def CardDetails.fromJson : Json → Except String CardDetails
  | Json.obj l => do
      let first6 ← optField l "first6" asStr
      let last4 ← reqField l "last4" asStr
      let expiry_year ← reqField l "expiry_year" asStr
      let expiry_month ← reqField l "expiry_month" asStr
      let card_type ← reqField l "card_type" asStr
      let issuer_country ← optField l "issuer_country" asStr
      let issuer_name ← optField l "issuer_name" asStr
      let source ← optField l "source" asStr
      let card_product ← optField l "card_product" CardProduct.fromJson
      .ok ⟨first6, last4, expiry_year, expiry_month, card_type, issuer_country,
           issuer_name, source, card_product⟩
  | _ => .error "invalid type: expected an object"

structure PayerBankDetails where
  bic : Option String
  bank_id : Option String

def PayerBankDetails.fromJson : Json → Except String PayerBankDetails
  | Json.obj l => do
      let bic ← optField l "bic" asStr
      let bank_id ← optField l "bank_id" asStr
      .ok ⟨bic, bank_id⟩
  | _ => .error "invalid type: expected an object"

structure PaymentMethod where
  payment_method_type : String
  id : String
  saved : Bool
  title : Option String
  card : Option CardDetails
  login : Option String
  phone : Option String
  sbp_operation_id : Option String
  payer_bank_details : Option PayerBankDetails

def PaymentMethod.fromJson : Json → Except String PaymentMethod
  | Json.obj l => do
      let payment_method_type ← reqField l "type" asStr
      let id ← reqField l "id" asStr
      let saved ← reqField l "saved" asBool
      let title ← optField l "title" asStr
      let card ← optField l "card" CardDetails.fromJson
      let login ← optField l "login" asStr
      let phone ← optField l "phone" asStr
      let sbp_operation_id ← optField l "sbp_operation_id" asStr
      let payer_bank_details ← optField l "payer_bank_details" PayerBankDetails.fromJson
      .ok ⟨payment_method_type, id, saved, title, card, login, phone,
           sbp_operation_id, payer_bank_details⟩
  | _ => .error "invalid type: expected an object"

structure CancellationDetails where
  party : String
  reason : String

def CancellationDetails.fromJson : Json → Except String CancellationDetails
  | Json.obj l => do
      let party ← reqField l "party" asStr
      let reason ← reqField l "reason" asStr
      .ok ⟨party, reason⟩
  | _ => .error "invalid type: expected an object"

structure ThreeDSecure where
  applied : Bool
  method_relevant : Option Bool

def ThreeDSecure.fromJson : Json → Except String ThreeDSecure
  | Json.obj l => do
      let applied ← reqField l "applied" asBool
      let method_relevant ← optField l "method_relevant" asBool
      .ok ⟨applied, method_relevant⟩
  | _ => .error "invalid type: expected an object"

structure AuthorizationDetails where
  rrn : Option String
  auth_code : Option String
  three_d_secure : Option ThreeDSecure

def AuthorizationDetails.fromJson : Json → Except String AuthorizationDetails
  | Json.obj l => do
      let rrn ← optField l "rrn" asStr
      let auth_code ← optField l "auth_code" asStr
      let three_d_secure ← optField l "three_d_secure" ThreeDSecure.fromJson
      .ok ⟨rrn, auth_code, three_d_secure⟩
  | _ => .error "invalid type: expected an object"

/-- The full payment object returned by the gateway.  The required
(non-`Option`) fields are exactly `id`, `status`, `amount`, `recipient`,
`created_at`, `test`, `paid`, `refundable`. -/
structure Payment where
  id : String
  status : PaymentStatus
  amount : Amount
  income_amount : Option Amount
  description : Option String
  recipient : Recipient
  payment_method : Option PaymentMethod
  captured_at : Option String
  created_at : String
  expires_at : Option String
  confirmation : Option ConfirmationResponse
  test : Bool
  paid : Bool
  refundable : Bool
  refunded_amount : Option Amount
  receipt_registration : Option String
  metadata : Option Json
  cancellation_details : Option CancellationDetails
  authorization_details : Option AuthorizationDetails

def Payment.fromJson : Json → Except String Payment
  | Json.obj l => do
      let id ← reqField l "id" asStr
      let status ← reqField l "status" PaymentStatus.fromJson
      let amount ← reqField l "amount" Amount.fromJson
      let income_amount ← optField l "income_amount" Amount.fromJson
      let description ← optField l "description" asStr
      let recipient ← reqField l "recipient" Recipient.fromJson
      let payment_method ← optField l "payment_method" PaymentMethod.fromJson
      let captured_at ← optField l "captured_at" asStr
      let created_at ← reqField l "created_at" asStr
      let expires_at ← optField l "expires_at" asStr
      let confirmation ← optField l "confirmation" ConfirmationResponse.fromJson
      let test ← reqField l "test" asBool
      let paid ← reqField l "paid" asBool
      let refundable ← reqField l "refundable" asBool
      let refunded_amount ← optField l "refunded_amount" Amount.fromJson
      let receipt_registration ← optField l "receipt_registration" asStr
      let metadata ← optField l "metadata" Except.ok
      let cancellation_details ← optField l "cancellation_details" CancellationDetails.fromJson
      let authorization_details ← optField l "authorization_details" AuthorizationDetails.fromJson
      .ok ⟨id, status, amount, income_amount, description, recipient,
           payment_method, captured_at, created_at, expires_at, confirmation,
           test, paid, refundable, refunded_amount, receipt_registration,
           metadata, cancellation_details, authorization_details⟩
  | _ => .error "invalid type: expected an object"

structure PaymentList where
  list_type : String
  items : List Payment
  next_cursor : Option String

def PaymentList.fromJson : Json → Except String PaymentList
  | Json.obj l => do
      let list_type ← reqField l "type" asStr
      let items ← reqField l "items" (decodeList Payment.fromJson)
      let next_cursor ← optField l "next_cursor" asStr
      .ok ⟨list_type, items, next_cursor⟩
  | _ => .error "invalid type: expected an object"

/-! ## Response classifier (embedding of `process_response`) -/

/-- A completed transport response: HTTP status plus the result of reading the
body in full (reading can itself fail, `Except.error ()`). -/
structure HttpResponse where
  status : Nat
  body : Except Unit String

/-- `StatusCode::is_success()`: 2xx. -/
def isSuccessStatus (s : Nat) : Bool := 200 ≤ s && s < 300

/-- `serde_json::from_str::<YooKassaApiError>(..).ok()`. -/
def parseApiError (s : String) : Option YooKassaApiError :=
  match parseJsonText s with
  | some j => (YooKassaApiError.fromJson j).toOption
  | none => none

/-- The fallback message substituted when the error-path body read fails
(`unwrap_or_else`). -/
def readBodyFailedMsg : String := "Не удалось прочитать тело ответа"

/-- `response.json::<R>()` after the body has been read: parse the text as
JSON and decode it; any failure is a single decode error (reqwest reports it
as "error decoding response body"). -/
def decodeBody {R : Type} (dec : Json → Except String R) (t : String) :
    Except String R :=
  match parseJsonText t with
  | none => .error "error decoding response body"
  | some j =>
      match dec j with
      | .ok v => .ok v
      | .error _ => .error "error decoding response body"

/-- Embedding of `YooKassaClient::process_response`: 2xx decodes the body as
the expected type, wrapping any decode failure as `YooKassaError::Reqwest`;
any other status yields `YooKassaError::ApiError` from the raw body text and
a best-effort parse of the structured error. -/
def process_response {R : Type} (dec : Json → Except String R)
    (resp : HttpResponse) : Except YooKassaError R :=
  if isSuccessStatus resp.status then
    match resp.body with
    | .error _ => .error (.Reqwest "error decoding response body")
    | .ok t =>
        match decodeBody dec t with
        | .ok v => .ok v
        | .error e => .error (.Reqwest e)
  else
    let body_text := match resp.body with
      | .ok t => t
      | .error _ => readBodyFailedMsg
    .error (.ApiError resp.status body_text (parseApiError body_text))

/-! ## Request-side data model (serialization and round trips) -/

structure ConfirmationRequest where
  confirmation_type : String
  return_url : String
  enforce : Option Bool
  locale : Option String

def ConfirmationRequest.toJson (c : ConfirmationRequest) : Json :=
  Json.obj ([("type", Json.str c.confirmation_type), ("return_url", Json.str c.return_url)]
    ++ optEntry "enforce" (c.enforce.map Json.bool)
    ++ optEntry "locale" (c.locale.map Json.str))

def ConfirmationRequest.fromJson : Json → Except String ConfirmationRequest
  | Json.obj l => do
      let confirmation_type ← reqField l "type" asStr
      let return_url ← reqField l "return_url" asStr
      let enforce ← optField l "enforce" asBool
      let locale ← optField l "locale" asStr
      .ok ⟨confirmation_type, return_url, enforce, locale⟩
  | _ => .error "invalid type: expected an object"

theorem confirmationRequest_roundtrip (c : ConfirmationRequest) :
    ConfirmationRequest.fromJson (ConfirmationRequest.toJson c) = Except.ok c := by
  simp [ConfirmationRequest.fromJson, ConfirmationRequest.toJson, reqField, optField,
    asStr, List.lookup]
  all_goals rfl

@[simp] theorem decodeOptVal_confirmationRequest (o : Option ConfirmationRequest) :
    decodeOptVal (o.map ConfirmationRequest.toJson) ConfirmationRequest.fromJson = .ok o :=
  decodeOptVal_enc ConfirmationRequest.toJson ConfirmationRequest.fromJson
    (fun _ => rfl) confirmationRequest_roundtrip o

structure CardData where
  number : String
  expiry_year : String
  expiry_month : String
  csc : Option String
  cardholder : Option String

def CardData.toJson (c : CardData) : Json :=
  Json.obj ([("number", Json.str c.number), ("expiry_year", Json.str c.expiry_year),
      ("expiry_month", Json.str c.expiry_month)]
    ++ optEntry "csc" (c.csc.map Json.str)
    ++ optEntry "cardholder" (c.cardholder.map Json.str))

def CardData.fromJson : Json → Except String CardData
  | Json.obj l => do
      let number ← reqField l "number" asStr
      let expiry_year ← reqField l "expiry_year" asStr
      let expiry_month ← reqField l "expiry_month" asStr
      let csc ← optField l "csc" asStr
      let cardholder ← optField l "cardholder" asStr
      .ok ⟨number, expiry_year, expiry_month, csc, cardholder⟩
  | _ => .error "invalid type: expected an object"

theorem cardData_roundtrip (c : CardData) :
    CardData.fromJson (CardData.toJson c) = Except.ok c := by
  simp [CardData.fromJson, CardData.toJson, reqField, optField, asStr, List.lookup]
  all_goals rfl

@[simp] theorem decodeOptVal_cardData (o : Option CardData) :
    decodeOptVal (o.map CardData.toJson) CardData.fromJson = .ok o :=
  decodeOptVal_enc CardData.toJson CardData.fromJson (fun _ => rfl) cardData_roundtrip o

structure PaymentMethodData where
  payment_method_type : String
  card : Option CardData
  login : Option String
  phone : Option String

def PaymentMethodData.toJson (p : PaymentMethodData) : Json :=
  Json.obj ([("type", Json.str p.payment_method_type)]
    ++ optEntry "card" (p.card.map CardData.toJson)
    ++ optEntry "login" (p.login.map Json.str)
    ++ optEntry "phone" (p.phone.map Json.str))

def PaymentMethodData.fromJson : Json → Except String PaymentMethodData
  | Json.obj l => do
      let payment_method_type ← reqField l "type" asStr
      let card ← optField l "card" CardData.fromJson
      let login ← optField l "login" asStr
      let phone ← optField l "phone" asStr
      .ok ⟨payment_method_type, card, login, phone⟩
  | _ => .error "invalid type: expected an object"

theorem paymentMethodData_roundtrip (p : PaymentMethodData) :
    PaymentMethodData.fromJson (PaymentMethodData.toJson p) = Except.ok p := by
  simp [PaymentMethodData.fromJson, PaymentMethodData.toJson, reqField, optField,
    asStr, List.lookup]
  all_goals rfl

@[simp] theorem decodeOptVal_paymentMethodData (o : Option PaymentMethodData) :
    decodeOptVal (o.map PaymentMethodData.toJson) PaymentMethodData.fromJson = .ok o :=
  decodeOptVal_enc PaymentMethodData.toJson PaymentMethodData.fromJson
    (fun _ => rfl) paymentMethodData_roundtrip o

theorem amount_roundtrip (a : Amount) :
    Amount.fromJson (Amount.toJson a) = Except.ok a := by
  simp [Amount.fromJson, Amount.toJson, reqField, asStr, List.lookup]
  all_goals rfl

@[simp] theorem decodeOptVal_amount (o : Option Amount) :
    decodeOptVal (o.map Amount.toJson) Amount.fromJson = .ok o :=
  decodeOptVal_enc Amount.toJson Amount.fromJson (fun _ => rfl) amount_roundtrip o

structure ReceiptCustomer where
  full_name : Option String
  inn : Option String
  email : Option String
  phone : Option String

def ReceiptCustomer.toJson (c : ReceiptCustomer) : Json :=
  Json.obj (optEntry "full_name" (c.full_name.map Json.str)
    ++ optEntry "inn" (c.inn.map Json.str)
    ++ optEntry "email" (c.email.map Json.str)
    ++ optEntry "phone" (c.phone.map Json.str))

def ReceiptCustomer.fromJson : Json → Except String ReceiptCustomer
  | Json.obj l => do
      let full_name ← optField l "full_name" asStr
      let inn ← optField l "inn" asStr
      let email ← optField l "email" asStr
      let phone ← optField l "phone" asStr
      .ok ⟨full_name, inn, email, phone⟩
  | _ => .error "invalid type: expected an object"

theorem receiptCustomer_roundtrip (c : ReceiptCustomer) :
    ReceiptCustomer.fromJson (ReceiptCustomer.toJson c) = Except.ok c := by
  simp [ReceiptCustomer.fromJson, ReceiptCustomer.toJson, optField, List.lookup]
  all_goals rfl

@[simp] theorem decodeOptVal_receiptCustomer (o : Option ReceiptCustomer) :
    decodeOptVal (o.map ReceiptCustomer.toJson) ReceiptCustomer.fromJson = .ok o :=
  decodeOptVal_enc ReceiptCustomer.toJson ReceiptCustomer.fromJson
    (fun _ => rfl) receiptCustomer_roundtrip o

structure ReceiptMarkQuantity where
  numerator : Int
  denominator : Int

def ReceiptMarkQuantity.toJson (m : ReceiptMarkQuantity) : Json :=
  Json.obj [("numerator", Json.num m.numerator), ("denominator", Json.num m.denominator)]

def ReceiptMarkQuantity.fromJson : Json → Except String ReceiptMarkQuantity
  | Json.obj l => do
      let numerator ← reqField l "numerator" asInt
      let denominator ← reqField l "denominator" asInt
      .ok ⟨numerator, denominator⟩
  | _ => .error "invalid type: expected an object"

theorem receiptMarkQuantity_roundtrip (m : ReceiptMarkQuantity) :
    ReceiptMarkQuantity.fromJson (ReceiptMarkQuantity.toJson m) = Except.ok m := by
  simp [ReceiptMarkQuantity.fromJson, ReceiptMarkQuantity.toJson, reqField, asInt,
    List.lookup]
  all_goals rfl

@[simp] theorem decodeOptVal_receiptMarkQuantity (o : Option ReceiptMarkQuantity) :
    decodeOptVal (o.map ReceiptMarkQuantity.toJson) ReceiptMarkQuantity.fromJson = .ok o :=
  decodeOptVal_enc ReceiptMarkQuantity.toJson ReceiptMarkQuantity.fromJson
    (fun _ => rfl) receiptMarkQuantity_roundtrip o

structure PaymentSubjectIndustryDetails where
  federal_id : String
  document_date : String
  document_number : String
  value : String

def PaymentSubjectIndustryDetails.toJson (d : PaymentSubjectIndustryDetails) : Json :=
  Json.obj [("federal_id", Json.str d.federal_id), ("document_date", Json.str d.document_date),
    ("document_number", Json.str d.document_number), ("value", Json.str d.value)]

def PaymentSubjectIndustryDetails.fromJson : Json → Except String PaymentSubjectIndustryDetails
  | Json.obj l => do
      let federal_id ← reqField l "federal_id" asStr
      let document_date ← reqField l "document_date" asStr
      let document_number ← reqField l "document_number" asStr
      let value ← reqField l "value" asStr
      .ok ⟨federal_id, document_date, document_number, value⟩
  | _ => .error "invalid type: expected an object"

theorem psid_roundtrip (d : PaymentSubjectIndustryDetails) :
    PaymentSubjectIndustryDetails.fromJson (PaymentSubjectIndustryDetails.toJson d) =
      Except.ok d := by
  simp [PaymentSubjectIndustryDetails.fromJson, PaymentSubjectIndustryDetails.toJson,
    reqField, asStr, List.lookup]
  all_goals rfl

theorem decodeListAux_map {α : Type} (dec : Json → Except String α) (enc : α → Json)
    (hrt : ∀ a, dec (enc a) = .ok a) (l : List α) :
    decodeListAux dec (l.map enc) = .ok l := by
  induction l with
  | nil => rfl
  | cons a as ih =>
      simp [decodeListAux, hrt a, ih]
      all_goals rfl

@[simp] theorem decodeList_psid (l : List PaymentSubjectIndustryDetails) :
    decodeList PaymentSubjectIndustryDetails.fromJson
      (Json.arr (l.map PaymentSubjectIndustryDetails.toJson)) = .ok l := by
  simp [decodeList,
    decodeListAux_map PaymentSubjectIndustryDetails.fromJson
      PaymentSubjectIndustryDetails.toJson psid_roundtrip l]

@[simp] theorem decodeOptVal_psidList (o : Option (List PaymentSubjectIndustryDetails)) :
    decodeOptVal (o.map (fun l => Json.arr (l.map PaymentSubjectIndustryDetails.toJson)))
      (decodeList PaymentSubjectIndustryDetails.fromJson) = .ok o :=
  decodeOptVal_enc (fun l => Json.arr (l.map PaymentSubjectIndustryDetails.toJson))
    (decodeList PaymentSubjectIndustryDetails.fromJson)
    (fun _ => rfl) (fun l => decodeList_psid l) o

structure ReceiptIndustryDetails where
  federal_id : String
  document_date : String
  document_number : String
  value : String

def ReceiptIndustryDetails.toJson (d : ReceiptIndustryDetails) : Json :=
  Json.obj [("federal_id", Json.str d.federal_id), ("document_date", Json.str d.document_date),
    ("document_number", Json.str d.document_number), ("value", Json.str d.value)]

def ReceiptIndustryDetails.fromJson : Json → Except String ReceiptIndustryDetails
  | Json.obj l => do
      let federal_id ← reqField l "federal_id" asStr
      let document_date ← reqField l "document_date" asStr
      let document_number ← reqField l "document_number" asStr
      let value ← reqField l "value" asStr
      .ok ⟨federal_id, document_date, document_number, value⟩
  | _ => .error "invalid type: expected an object"

theorem rid_roundtrip (d : ReceiptIndustryDetails) :
    ReceiptIndustryDetails.fromJson (ReceiptIndustryDetails.toJson d) = Except.ok d := by
  simp [ReceiptIndustryDetails.fromJson, ReceiptIndustryDetails.toJson, reqField,
    asStr, List.lookup]
  all_goals rfl

@[simp] theorem decodeList_rid (l : List ReceiptIndustryDetails) :
    decodeList ReceiptIndustryDetails.fromJson
      (Json.arr (l.map ReceiptIndustryDetails.toJson)) = .ok l := by
  simp [decodeList,
    decodeListAux_map ReceiptIndustryDetails.fromJson ReceiptIndustryDetails.toJson
      rid_roundtrip l]

@[simp] theorem decodeOptVal_ridList (o : Option (List ReceiptIndustryDetails)) :
    decodeOptVal (o.map (fun l => Json.arr (l.map ReceiptIndustryDetails.toJson)))
      (decodeList ReceiptIndustryDetails.fromJson) = .ok o :=
  decodeOptVal_enc (fun l => Json.arr (l.map ReceiptIndustryDetails.toJson))
    (decodeList ReceiptIndustryDetails.fromJson)
    (fun _ => rfl) (fun l => decodeList_rid l) o

structure ReceiptOperationalDetails where
  operation_id : Int
  value : String
  created_at : String

def ReceiptOperationalDetails.toJson (d : ReceiptOperationalDetails) : Json :=
  Json.obj [("operation_id", Json.num d.operation_id), ("value", Json.str d.value),
    ("created_at", Json.str d.created_at)]

def ReceiptOperationalDetails.fromJson : Json → Except String ReceiptOperationalDetails
  | Json.obj l => do
      let operation_id ← reqField l "operation_id" asInt
      let value ← reqField l "value" asStr
      let created_at ← reqField l "created_at" asStr
      .ok ⟨operation_id, value, created_at⟩
  | _ => .error "invalid type: expected an object"

theorem receiptOperationalDetails_roundtrip (d : ReceiptOperationalDetails) :
    ReceiptOperationalDetails.fromJson (ReceiptOperationalDetails.toJson d) = Except.ok d := by
  simp [ReceiptOperationalDetails.fromJson, ReceiptOperationalDetails.toJson, reqField,
    asInt, asStr, List.lookup]
  all_goals rfl

@[simp] theorem decodeOptVal_receiptOperationalDetails (o : Option ReceiptOperationalDetails) :
    decodeOptVal (o.map ReceiptOperationalDetails.toJson) ReceiptOperationalDetails.fromJson =
      .ok o :=
  decodeOptVal_enc ReceiptOperationalDetails.toJson ReceiptOperationalDetails.fromJson
    (fun _ => rfl) receiptOperationalDetails_roundtrip o

structure ReceiptItem where
  description : String
  quantity : String
  amount : Amount
  vat_code : Int
  payment_mode : Option String
  payment_subject : Option String
  country_of_origin_code : Option String
  customs_declaration_number : Option String
  excise : Option String
  product_code : Option String
  mark_quantity : Option ReceiptMarkQuantity
  payment_subject_industry_details : Option (List PaymentSubjectIndustryDetails)
  product_mark : Option String

def ReceiptItem.toJson (i : ReceiptItem) : Json :=
  Json.obj ([("description", Json.str i.description), ("quantity", Json.str i.quantity),
      ("amount", Amount.toJson i.amount), ("vat_code", Json.num i.vat_code)]
    ++ optEntry "payment_mode" (i.payment_mode.map Json.str)
    ++ optEntry "payment_subject" (i.payment_subject.map Json.str)
    ++ optEntry "country_of_origin_code" (i.country_of_origin_code.map Json.str)
    ++ optEntry "customs_declaration_number" (i.customs_declaration_number.map Json.str)
    ++ optEntry "excise" (i.excise.map Json.str)
    ++ optEntry "product_code" (i.product_code.map Json.str)
    ++ optEntry "mark_quantity" (i.mark_quantity.map ReceiptMarkQuantity.toJson)
    ++ optEntry "payment_subject_industry_details"
        (i.payment_subject_industry_details.map
          (fun l => Json.arr (l.map PaymentSubjectIndustryDetails.toJson)))
    ++ optEntry "product_mark" (i.product_mark.map Json.str))

def ReceiptItem.fromJson : Json → Except String ReceiptItem
  | Json.obj l => do
      let description ← reqField l "description" asStr
      let quantity ← reqField l "quantity" asStr
      let amount ← reqField l "amount" Amount.fromJson
      let vat_code ← reqField l "vat_code" asInt
      let payment_mode ← optField l "payment_mode" asStr
      let payment_subject ← optField l "payment_subject" asStr
      let country_of_origin_code ← optField l "country_of_origin_code" asStr
      let customs_declaration_number ← optField l "customs_declaration_number" asStr
      let excise ← optField l "excise" asStr
      let product_code ← optField l "product_code" asStr
      let mark_quantity ← optField l "mark_quantity" ReceiptMarkQuantity.fromJson
      let payment_subject_industry_details ←
        optField l "payment_subject_industry_details"
          (decodeList PaymentSubjectIndustryDetails.fromJson)
      let product_mark ← optField l "product_mark" asStr
      .ok ⟨description, quantity, amount, vat_code, payment_mode, payment_subject,
           country_of_origin_code, customs_declaration_number, excise, product_code,
           mark_quantity, payment_subject_industry_details, product_mark⟩
  | _ => .error "invalid type: expected an object"

theorem receiptItem_roundtrip (i : ReceiptItem) :
    ReceiptItem.fromJson (ReceiptItem.toJson i) = Except.ok i := by
  simp [ReceiptItem.fromJson, ReceiptItem.toJson, reqField, optField, asStr, asInt,
    amount_roundtrip, List.lookup]
  all_goals rfl

@[simp] theorem decodeList_receiptItem (l : List ReceiptItem) :
    decodeList ReceiptItem.fromJson (Json.arr (l.map ReceiptItem.toJson)) = .ok l := by
  simp [decodeList, decodeListAux_map ReceiptItem.fromJson ReceiptItem.toJson
    receiptItem_roundtrip l]

structure Receipt where
  customer : Option ReceiptCustomer
  items : List ReceiptItem
  tax_system_code : Option Int
  receipt_industry_details : Option (List ReceiptIndustryDetails)
  receipt_operational_details : Option ReceiptOperationalDetails

def Receipt.toJson (r : Receipt) : Json :=
  Json.obj (optEntry "customer" (r.customer.map ReceiptCustomer.toJson)
    ++ [("items", Json.arr (r.items.map ReceiptItem.toJson))]
    ++ optEntry "tax_system_code" (r.tax_system_code.map Json.num)
    ++ optEntry "receipt_industry_details"
        (r.receipt_industry_details.map (fun l => Json.arr (l.map ReceiptIndustryDetails.toJson)))
    ++ optEntry "receipt_operational_details"
        (r.receipt_operational_details.map ReceiptOperationalDetails.toJson))

def Receipt.fromJson : Json → Except String Receipt
  | Json.obj l => do
      let customer ← optField l "customer" ReceiptCustomer.fromJson
      let items ← reqField l "items" (decodeList ReceiptItem.fromJson)
      let tax_system_code ← optField l "tax_system_code" asInt
      let receipt_industry_details ←
        optField l "receipt_industry_details" (decodeList ReceiptIndustryDetails.fromJson)
      let receipt_operational_details ←
        optField l "receipt_operational_details" ReceiptOperationalDetails.fromJson
      .ok ⟨customer, items, tax_system_code, receipt_industry_details,
           receipt_operational_details⟩
  | _ => .error "invalid type: expected an object"

theorem receipt_roundtrip (r : Receipt) :
    Receipt.fromJson (Receipt.toJson r) = Except.ok r := by
  simp [Receipt.fromJson, Receipt.toJson, reqField, optField, asInt, List.lookup]
  all_goals rfl

@[simp] theorem decodeOptVal_receipt (o : Option Receipt) :
    decodeOptVal (o.map Receipt.toJson) Receipt.fromJson = .ok o :=
  decodeOptVal_enc Receipt.toJson Receipt.fromJson (fun _ => rfl) receipt_roundtrip o

/-- Payment-creation request.  `metadata` is an arbitrary `serde_json::Value`
(embedded as `Json`). -/
structure CreatePaymentRequest where
  amount : Amount
  description : Option String
  payment_method_data : Option PaymentMethodData
  confirmation : Option ConfirmationRequest
  capture : Option Bool
  save_payment_method : Option Bool
  metadata : Option Json
  receipt : Option Receipt
  payment_token : Option String
  payment_method_id : Option String
  client_ip : Option String

def CreatePaymentRequest.toJson (r : CreatePaymentRequest) : Json :=
  Json.obj ([("amount", Amount.toJson r.amount)]
    ++ optEntry "description" (r.description.map Json.str)
    ++ optEntry "payment_method_data" (r.payment_method_data.map PaymentMethodData.toJson)
    ++ optEntry "confirmation" (r.confirmation.map ConfirmationRequest.toJson)
    ++ optEntry "capture" (r.capture.map Json.bool)
    ++ optEntry "save_payment_method" (r.save_payment_method.map Json.bool)
    ++ optEntry "metadata" r.metadata
    ++ optEntry "receipt" (r.receipt.map Receipt.toJson)
    ++ optEntry "payment_token" (r.payment_token.map Json.str)
    ++ optEntry "payment_method_id" (r.payment_method_id.map Json.str)
    ++ optEntry "client_ip" (r.client_ip.map Json.str))

def CreatePaymentRequest.fromJson : Json → Except String CreatePaymentRequest
  | Json.obj l => do
      let amount ← reqField l "amount" Amount.fromJson
      let description ← optField l "description" asStr
      let payment_method_data ← optField l "payment_method_data" PaymentMethodData.fromJson
      let confirmation ← optField l "confirmation" ConfirmationRequest.fromJson
      let capture ← optField l "capture" asBool
      let save_payment_method ← optField l "save_payment_method" asBool
      let metadata ← optField l "metadata" Except.ok
      let receipt ← optField l "receipt" Receipt.fromJson
      let payment_token ← optField l "payment_token" asStr
      let payment_method_id ← optField l "payment_method_id" asStr
      let client_ip ← optField l "client_ip" asStr
      .ok ⟨amount, description, payment_method_data, confirmation, capture,
           save_payment_method, metadata, receipt, payment_token, payment_method_id,
           client_ip⟩
  | _ => .error "invalid type: expected an object"

/-- Capture (partial-capture) request; `CapturePaymentRequest::default()` is
both fields `None`. -/
structure CapturePaymentRequest where
  amount : Option Amount
  receipt : Option Receipt

def CapturePaymentRequest.default : CapturePaymentRequest := ⟨none, none⟩

def CapturePaymentRequest.toJson (r : CapturePaymentRequest) : Json :=
  Json.obj (optEntry "amount" (r.amount.map Amount.toJson)
    ++ optEntry "receipt" (r.receipt.map Receipt.toJson))

def CapturePaymentRequest.fromJson : Json → Except String CapturePaymentRequest
  | Json.obj l => do
      let amount ← optField l "amount" Amount.fromJson
      let receipt ← optField l "receipt" Receipt.fromJson
      .ok ⟨amount, receipt⟩
  | _ => .error "invalid type: expected an object"

theorem capturePaymentRequest_roundtrip (r : CapturePaymentRequest) :
    CapturePaymentRequest.fromJson (CapturePaymentRequest.toJson r) = Except.ok r := by
  simp [CapturePaymentRequest.fromJson, CapturePaymentRequest.toJson, optField, List.lookup]
  all_goals rfl

/-! ## Client and request pipeline -/

inductive HttpMethod where
  | GET : HttpMethod
  | POST : HttpMethod
deriving DecidableEq

/-- A fully built (not yet dispatched) HTTP request: method, absolute URL,
extra headers, basic-auth credentials, optional JSON body, query parameters. -/
structure HttpRequest where
  method : HttpMethod
  url : String
  headers : List (String × String)
  basic_auth : Option (String × String)
  body : Option Json
  query : List (String × String)

def getHeader (r : HttpRequest) (k : String) : Option String :=
  r.headers.lookup k

def hasHeader (r : HttpRequest) (k : String) : Bool :=
  (getHeader r k).isSome

def YOOKASSA_API_BASE_URL : String := "https://api.yookassa.ru/v3/"

def IDEMPOTENCE_KEY_HEADER : String := "Idempotence-Key"

structure YooKassaClient where
  shop_id : String
  secret_key : String
  base_url : String

/-- `YooKassaClient::new` (the reqwest transport handle itself carries no
request-relevant state and is not modelled). -/
def YooKassaClient.new (shop_id secret_key : String) : YooKassaClient :=
  ⟨shop_id, secret_key, YOOKASSA_API_BASE_URL⟩

def YooKassaClient.set_base_url (c : YooKassaClient) (base_url : String) : YooKassaClient :=
  { c with base_url := base_url }

/-- `HeaderValue::from_str` validity (tab or visible/printable byte). -/
def validHeaderValue (s : String) : Bool :=
  s.data.all (fun c => c.toNat = 9 || (32 ≤ c.toNat && c.toNat ≠ 127))

/-- Embedding of `YooKassaClient::send_request` up to the transport boundary:
the request it builds.  `idempotency_key` stands for the freshly generated
`Uuid::new_v4().to_string()` of this call; it is consulted only when
`idempotency_key_required` (the source generates the UUID only in that
branch).  `HeaderValue::from_str` failure propagates as
`InvalidHeaderValue` via `?`. -/
def YooKassaClient.send_request (c : YooKassaClient) (method : HttpMethod)
    (endpoint : String) (body : Option Json) (idempotency_key_required : Bool)
    (idempotency_key : String) : Except YooKassaError HttpRequest :=
  let base_headers := [("Content-Type", "application/json"), ("Accept", "application/json")]
  if idempotency_key_required then
    if validHeaderValue idempotency_key then
      .ok { method := method, url := c.base_url ++ endpoint,
            headers := base_headers ++ [(IDEMPOTENCE_KEY_HEADER, idempotency_key)],
            basic_auth := some (c.shop_id, c.secret_key), body := body, query := [] }
    else .error (.InvalidHeaderValue idempotency_key)
  else
    .ok { method := method, url := c.base_url ++ endpoint, headers := base_headers,
          basic_auth := some (c.shop_id, c.secret_key), body := body, query := [] }

/-- `create_payment`: POST `payments`, keyed, body = the serialized request. -/
def YooKassaClient.create_payment (c : YooKassaClient) (request : CreatePaymentRequest)
    (idempotency_key : String) : Except YooKassaError HttpRequest :=
  c.send_request .POST "payments" (some (CreatePaymentRequest.toJson request)) true
    idempotency_key

/-- `get_payment`: GET `payments/{id}`, unkeyed, no body (the unused key
argument mirrors that no UUID is generated on this path). -/
def YooKassaClient.get_payment (c : YooKassaClient) (payment_id : String) :
    Except YooKassaError HttpRequest :=
  c.send_request .GET ("payments/" ++ payment_id) none false ""

/-- `capture_payment`: POST `payments/{id}/capture`, keyed; a missing
caller-supplied body is replaced by `CapturePaymentRequest::default()`. -/
def YooKassaClient.capture_payment (c : YooKassaClient) (payment_id : String)
    (request : Option CapturePaymentRequest) (idempotency_key : String) :
    Except YooKassaError HttpRequest :=
  let body_to_send := request.getD CapturePaymentRequest.default
  c.send_request .POST ("payments/" ++ payment_id ++ "/capture")
    (some (CapturePaymentRequest.toJson body_to_send)) true idempotency_key

/-- `cancel_payment`: POST `payments/{id}/cancel`, keyed, body =
`serde_json::json!({})`. -/
def YooKassaClient.cancel_payment (c : YooKassaClient) (payment_id : String)
    (idempotency_key : String) : Except YooKassaError HttpRequest :=
  c.send_request .POST ("payments/" ++ payment_id ++ "/cancel") (some (Json.obj []))
    true idempotency_key

/-- `list_payments` builds its request directly on the transport handle, not
through `send_request`: GET `payments` with basic auth, an `Accept` header
only, optional query parameters, and no body. -/
def YooKassaClient.list_payments (c : YooKassaClient)
    (params : Option (List (String × String))) : HttpRequest :=
  { method := .GET, url := c.base_url ++ "payments",
    headers := [("Accept", "application/json")],
    basic_auth := some (c.shop_id, c.secret_key), body := none,
    query := match params with
      | some q => q
      | none => [] }

/-! ## Helper lemmas for the claim theorems -/

theorem exists_of_bind_ok {α β : Type} {x : Except String α} {f : α → Except String β}
    {b : β} (h : (x >>= f) = .ok b) : ∃ a, x = .ok a ∧ f a = .ok b := by
  cases x with
  | error e => simp [Bind.bind, Except.bind] at h
  | ok a => exact ⟨a, rfl, by simpa [Bind.bind, Except.bind] using h⟩

theorem reqField_ok_lookup_isSome {α : Type} {l : List (String × Json)} {k : String}
    {dec : Json → Except String α} {a : α} (h : reqField l k dec = .ok a) :
    (l.lookup k).isSome = true := by
  cases hh : l.lookup k with
  | none => simp [reqField, hh] at h
  | some j => simp

/-- Is the result the `Serde` (serialization) error variant? -/
def isSerdeError {α : Type} : Except YooKassaError α → Bool
  | .error (.Serde _) => true
  | _ => false

@[simp] theorem decodeOptVal_none {α : Type} (dec : Json → Except String α) :
    decodeOptVal none dec = .ok none := rfl

theorem decodeOptVal_ok_not_null {j : Json} (hj : j.isNull = false) :
    decodeOptVal (some j) Except.ok = .ok (some j) := by
  simp [decodeOptVal, hj, Except.map]

/-- A populated request used to witness the round-trip theorem. -/
def witnessCreateRequest : CreatePaymentRequest :=
  ⟨⟨"10.00", "RUB"⟩, none, none,
   some ⟨"redirect", "https://example.com/return", none, some "ru_RU"⟩,
   some true, none, some (Json.obj [("order_id", Json.str "123xyz")]), none,
   none, none, some "127.0.0.1"⟩

/-- The request that defeats the round-trip claim: its `metadata` is populated
with the JSON value `null`. -/
def cexCreateRequest : CreatePaymentRequest :=
  ⟨⟨"10.00", "RUB"⟩, none, none, none, none, none, some Json.null, none, none,
   none, none⟩

/-- C9 (amended): serializing a `CreatePaymentRequest` and deserializing the
result recovers the value provided `metadata` is not populated with JSON
`null` (serde maps a present `null` back to `None` for an `Option` field),
and every unset optional field is absent from the serialized object. -/
theorem createPaymentRequest_json_roundtrip (r : CreatePaymentRequest) :
    (r.metadata ≠ some Json.null →
      CreatePaymentRequest.fromJson (CreatePaymentRequest.toJson r) = Except.ok r)
    ∧ (r.description = none → (CreatePaymentRequest.toJson r).hasKey "description" = false)
    ∧ (r.payment_method_data = none →
        (CreatePaymentRequest.toJson r).hasKey "payment_method_data" = false)
    ∧ (r.confirmation = none → (CreatePaymentRequest.toJson r).hasKey "confirmation" = false)
    ∧ (r.capture = none → (CreatePaymentRequest.toJson r).hasKey "capture" = false)
    ∧ (r.save_payment_method = none →
        (CreatePaymentRequest.toJson r).hasKey "save_payment_method" = false)
    ∧ (r.metadata = none → (CreatePaymentRequest.toJson r).hasKey "metadata" = false)
    ∧ (r.receipt = none → (CreatePaymentRequest.toJson r).hasKey "receipt" = false)
    ∧ (r.payment_token = none → (CreatePaymentRequest.toJson r).hasKey "payment_token" = false)
    ∧ (r.payment_method_id = none →
        (CreatePaymentRequest.toJson r).hasKey "payment_method_id" = false)
    ∧ (r.client_ip = none → (CreatePaymentRequest.toJson r).hasKey "client_ip" = false) := by
  constructor
  · intro hm
    obtain ⟨amount, description, pmd, conf, capture, spm, metadata, receipt, ptok,
      pmid, cip⟩ := r
    cases metadata with
    | none =>
        simp [CreatePaymentRequest.fromJson, CreatePaymentRequest.toJson, reqField,
          optField, amount_roundtrip, List.lookup]
        all_goals rfl
    | some j =>
        have hj : j.isNull = false := by
          cases j <;> simp_all [Json.isNull]
        simp [CreatePaymentRequest.fromJson, CreatePaymentRequest.toJson, reqField,
          optField, amount_roundtrip, decodeOptVal_ok_not_null hj, List.lookup]
        all_goals rfl
  refine ⟨?_, ?_, ?_, ?_, ?_, ?_, ?_, ?_, ?_, ?_⟩ <;>
    (intro h; simp [CreatePaymentRequest.toJson, Json.hasKey, h, List.lookup])

/-- C9 (counterexample): a `CreatePaymentRequest` whose `metadata` field is
populated with JSON `null` does not round-trip: deserialization returns the
request with `metadata` unset, so a populated optional field is not
recovered. -/
theorem createPaymentRequest_metadata_null_cex :
    CreatePaymentRequest.fromJson (CreatePaymentRequest.toJson cexCreateRequest) =
      Except.ok { cexCreateRequest with metadata := none }
    ∧ ({ cexCreateRequest with metadata := none } : CreatePaymentRequest) ≠
        cexCreateRequest := by
  refine ⟨rfl, fun h => ?_⟩
  have := congrArg CreatePaymentRequest.metadata h
  simp [cexCreateRequest] at this

/-- C9 (witness): the round-trip theorem applied to a concrete populated
request. -/
theorem createPaymentRequest_json_roundtrip_witness :
    CreatePaymentRequest.fromJson (CreatePaymentRequest.toJson witnessCreateRequest) =
      Except.ok witnessCreateRequest
    ∧ (CreatePaymentRequest.toJson witnessCreateRequest).hasKey "description" = false :=
  ⟨(createPaymentRequest_json_roundtrip witnessCreateRequest).1
      (by simp [witnessCreateRequest]),
   (createPaymentRequest_json_roundtrip witnessCreateRequest).2.1 rfl⟩

/-- C1: the request built by each client operation matches the interface
table: create POST `payments` keyed; capture POST `payments/{id}/capture`
keyed; cancel POST `payments/{id}/cancel` keyed; get GET `payments/{id}`
unkeyed; list GET `payments` unkeyed. -/
theorem client_request_interface_table (c : YooKassaClient)
    (r : CreatePaymentRequest) (pid : String) (capReq : Option CapturePaymentRequest)
    (params : Option (List (String × String))) (u : String)
    (hu : validHeaderValue u = true) :
    ((c.create_payment r u).map (fun q => q.method) = .ok .POST
      ∧ (c.create_payment r u).map (fun q => q.url) = .ok (c.base_url ++ "payments")
      ∧ (c.create_payment r u).map (fun q => hasHeader q IDEMPOTENCE_KEY_HEADER) = .ok true)
    ∧ ((c.capture_payment pid capReq u).map (fun q => q.method) = .ok .POST
      ∧ (c.capture_payment pid capReq u).map (fun q => q.url) =
          .ok (c.base_url ++ ("payments/" ++ pid ++ "/capture"))
      ∧ (c.capture_payment pid capReq u).map (fun q => hasHeader q IDEMPOTENCE_KEY_HEADER) =
          .ok true)
    ∧ ((c.cancel_payment pid u).map (fun q => q.method) = .ok .POST
      ∧ (c.cancel_payment pid u).map (fun q => q.url) =
          .ok (c.base_url ++ ("payments/" ++ pid ++ "/cancel"))
      ∧ (c.cancel_payment pid u).map (fun q => hasHeader q IDEMPOTENCE_KEY_HEADER) = .ok true)
    ∧ ((c.get_payment pid).map (fun q => q.method) = .ok .GET
      ∧ (c.get_payment pid).map (fun q => q.url) = .ok (c.base_url ++ ("payments/" ++ pid))
      ∧ (c.get_payment pid).map (fun q => hasHeader q IDEMPOTENCE_KEY_HEADER) = .ok false)
    ∧ ((c.list_payments params).method = .GET
      ∧ (c.list_payments params).url = c.base_url ++ "payments"
      ∧ hasHeader (c.list_payments params) IDEMPOTENCE_KEY_HEADER = false) := by
  refine ⟨⟨?_, ?_, ?_⟩, ⟨?_, ?_, ?_⟩, ⟨?_, ?_, ?_⟩, ⟨?_, ?_, ?_⟩, ⟨?_, ?_, ?_⟩⟩ <;>
    simp [YooKassaClient.create_payment, YooKassaClient.capture_payment,
      YooKassaClient.cancel_payment, YooKassaClient.get_payment,
      YooKassaClient.list_payments, YooKassaClient.send_request, hu, hasHeader,
      getHeader, IDEMPOTENCE_KEY_HEADER, Except.map, List.lookup]

/-- C1 (witness): the table theorem applied at a concrete client, request and
key. -/
theorem client_request_interface_table_witness :
    ((YooKassaClient.new "shop" "secret").create_payment witnessCreateRequest "k1").map
      (fun q => hasHeader q IDEMPOTENCE_KEY_HEADER) = .ok true
    ∧ ((YooKassaClient.new "shop" "secret").get_payment "p1").map
        (fun q => hasHeader q IDEMPOTENCE_KEY_HEADER) = .ok false :=
  ⟨(client_request_interface_table (YooKassaClient.new "shop" "secret")
      witnessCreateRequest "p1" none none "k1" (by decide)).1.2.2,
   (client_request_interface_table (YooKassaClient.new "shop" "secret")
      witnessCreateRequest "p1" none none "k1" (by decide)).2.2.2.1.2.2⟩

/-- C4 (counterexample): the request built by `list_payments` carries no
`Content-Type` header at all — it bypasses `send_request` and only sets
`Accept` — so not every client operation sends `Content-Type:
application/json`. -/
theorem list_payments_no_content_type_cex :
    getHeader ((YooKassaClient.new "shop" "secret").list_payments none) "Content-Type" = none
    ∧ getHeader ((YooKassaClient.new "shop" "secret").list_payments none) "Content-Type" ≠
        some "application/json" := by
  exact ⟨rfl, by simp [YooKassaClient.list_payments, getHeader, List.lookup]⟩

/-- C4 (amended): every request built through `send_request` (create, get,
capture, cancel) carries `Content-Type: application/json`,
`Accept: application/json` and basic auth from the stored credentials;
`list_payments` carries `Accept: application/json` and the same basic auth
but no `Content-Type` header. -/
theorem request_common_headers (c : YooKassaClient) (r : CreatePaymentRequest)
    (pid : String) (capReq : Option CapturePaymentRequest)
    (params : Option (List (String × String))) (u : String)
    (hu : validHeaderValue u = true) :
    ((c.create_payment r u).map (fun q => getHeader q "Content-Type") =
        .ok (some "application/json")
      ∧ (c.create_payment r u).map (fun q => getHeader q "Accept") =
          .ok (some "application/json")
      ∧ (c.create_payment r u).map (fun q => q.basic_auth) =
          .ok (some (c.shop_id, c.secret_key)))
    ∧ ((c.capture_payment pid capReq u).map (fun q => getHeader q "Content-Type") =
        .ok (some "application/json")
      ∧ (c.capture_payment pid capReq u).map (fun q => getHeader q "Accept") =
          .ok (some "application/json")
      ∧ (c.capture_payment pid capReq u).map (fun q => q.basic_auth) =
          .ok (some (c.shop_id, c.secret_key)))
    ∧ ((c.cancel_payment pid u).map (fun q => getHeader q "Content-Type") =
        .ok (some "application/json")
      ∧ (c.cancel_payment pid u).map (fun q => getHeader q "Accept") =
          .ok (some "application/json")
      ∧ (c.cancel_payment pid u).map (fun q => q.basic_auth) =
          .ok (some (c.shop_id, c.secret_key)))
    ∧ ((c.get_payment pid).map (fun q => getHeader q "Content-Type") =
        .ok (some "application/json")
      ∧ (c.get_payment pid).map (fun q => getHeader q "Accept") =
          .ok (some "application/json")
      ∧ (c.get_payment pid).map (fun q => q.basic_auth) =
          .ok (some (c.shop_id, c.secret_key)))
    ∧ (getHeader (c.list_payments params) "Content-Type" = none
      ∧ getHeader (c.list_payments params) "Accept" = some "application/json"
      ∧ (c.list_payments params).basic_auth = some (c.shop_id, c.secret_key)) := by
  refine ⟨⟨?_, ?_, ?_⟩, ⟨?_, ?_, ?_⟩, ⟨?_, ?_, ?_⟩, ⟨?_, ?_, ?_⟩, ⟨?_, ?_, ?_⟩⟩ <;>
    simp [YooKassaClient.create_payment, YooKassaClient.capture_payment,
      YooKassaClient.cancel_payment, YooKassaClient.get_payment,
      YooKassaClient.list_payments, YooKassaClient.send_request, hu, getHeader,
      Except.map, List.lookup]

/-- C4 (witness): the header theorem applied at a concrete client and key. -/
theorem request_common_headers_witness :
    ((YooKassaClient.new "shop" "secret").create_payment witnessCreateRequest "k1").map
      (fun q => getHeader q "Content-Type") = .ok (some "application/json")
    ∧ getHeader ((YooKassaClient.new "shop" "secret").list_payments none) "Accept" =
        some "application/json" :=
  ⟨(request_common_headers (YooKassaClient.new "shop" "secret") witnessCreateRequest
      "p1" none none "k1" (by decide)).1.1,
   (request_common_headers (YooKassaClient.new "shop" "secret") witnessCreateRequest
      "p1" none none "k1" (by decide)).2.2.2.2.2.1⟩

/-- C5: a capture with no caller-supplied body and a cancel both transmit the
body `CapturePaymentRequest::default()` / `json!({})`, i.e. the JSON object
with no members; it serializes to the two-character text `{}`, which is not
the empty string, and the body is present (`some`), never omitted. -/
theorem capture_cancel_empty_object_body (c : YooKassaClient) (pid u : String)
    (hu : validHeaderValue u = true) :
    (c.capture_payment pid none u).map (fun q => q.body) = .ok (some (Json.obj []))
    ∧ (c.cancel_payment pid u).map (fun q => q.body) = .ok (some (Json.obj []))
    ∧ Json.render (Json.obj []) = "\x7b\x7d"
    ∧ ("\x7b\x7d" : String) ≠ "" := by
  refine ⟨?_, ?_, rfl, by decide⟩ <;>
    simp [YooKassaClient.capture_payment, YooKassaClient.cancel_payment,
      YooKassaClient.send_request, CapturePaymentRequest.toJson,
      CapturePaymentRequest.default, optEntry, hu, Except.map]

/-- C5 (witness): the empty-body theorem at a concrete client and key. -/
theorem capture_cancel_empty_object_body_witness :
    ((YooKassaClient.new "shop" "secret").capture_payment "p1" none "k1").map
      (fun q => q.body) = .ok (some (Json.obj [])) :=
  (capture_cancel_empty_object_body (YooKassaClient.new "shop" "secret") "p1" "k1"
    (by decide)).1

/-- C7: the idempotency key sent is exactly the freshly generated per-call
token, so two calls of the same mutating operation with distinct random
tokens carry distinct `Idempotence-Key` header values. -/
theorem mutating_ops_distinct_idempotency_keys (c : YooKassaClient)
    (r : CreatePaymentRequest) (pid : String) (capReq : Option CapturePaymentRequest)
    (u1 u2 : String) (hne : u1 ≠ u2) (h1 : validHeaderValue u1 = true)
    (h2 : validHeaderValue u2 = true) :
    (c.create_payment r u1).map (fun q => getHeader q IDEMPOTENCE_KEY_HEADER) ≠
      (c.create_payment r u2).map (fun q => getHeader q IDEMPOTENCE_KEY_HEADER)
    ∧ (c.capture_payment pid capReq u1).map (fun q => getHeader q IDEMPOTENCE_KEY_HEADER) ≠
        (c.capture_payment pid capReq u2).map (fun q => getHeader q IDEMPOTENCE_KEY_HEADER)
    ∧ (c.cancel_payment pid u1).map (fun q => getHeader q IDEMPOTENCE_KEY_HEADER) ≠
        (c.cancel_payment pid u2).map (fun q => getHeader q IDEMPOTENCE_KEY_HEADER) := by
  refine ⟨?_, ?_, ?_⟩ <;>
    simp [YooKassaClient.create_payment, YooKassaClient.capture_payment,
      YooKassaClient.cancel_payment, YooKassaClient.send_request, h1, h2, getHeader,
      IDEMPOTENCE_KEY_HEADER, Except.map, List.lookup, hne]

/-- C7 (witness): distinct keys at a concrete client with tokens "k1", "k2". -/
theorem mutating_ops_distinct_idempotency_keys_witness :
    ((YooKassaClient.new "shop" "secret").cancel_payment "p1" "k1").map
      (fun q => getHeader q IDEMPOTENCE_KEY_HEADER) ≠
    ((YooKassaClient.new "shop" "secret").cancel_payment "p1" "k2").map
      (fun q => getHeader q IDEMPOTENCE_KEY_HEADER) :=
  (mutating_ops_distinct_idempotency_keys (YooKassaClient.new "shop" "secret")
    witnessCreateRequest "p1" none "k1" "k2" (by decide) (by decide) (by decide)).2.2

/-- C6: `PaymentStatus` deserialization accepts exactly the four wire strings
`pending`, `waiting_for_capture`, `succeeded`, `canceled` and fails with a
decode error on every other string. -/
theorem paymentStatus_closed_enum :
    PaymentStatus.fromJson (Json.str "pending") = .ok .Pending
    ∧ PaymentStatus.fromJson (Json.str "waiting_for_capture") = .ok .WaitingForCapture
    ∧ PaymentStatus.fromJson (Json.str "succeeded") = .ok .Succeeded
    ∧ PaymentStatus.fromJson (Json.str "canceled") = .ok .Canceled
    ∧ (∀ s : String, s ≠ "pending" → s ≠ "waiting_for_capture" → s ≠ "succeeded" →
        s ≠ "canceled" →
        PaymentStatus.fromJson (Json.str s) = .error ("unknown variant " ++ s)) := by
  refine ⟨rfl, rfl, rfl, rfl, fun s h1 h2 h3 h4 => ?_⟩
  simp [PaymentStatus.fromJson, h1, h2, h3, h4]

/-- C6 (witness): the unknown wire value "refunded" is rejected with a decode
error. -/
theorem paymentStatus_closed_enum_witness :
    PaymentStatus.fromJson (Json.str "refunded") = .error ("unknown variant " ++ "refunded") :=
  paymentStatus_closed_enum.2.2.2.2 "refunded" (by decide) (by decide) (by decide)
    (by decide)

/-- C2: classification is decided purely by the status code: on a 2xx status
the body is decoded as the expected type; on any other status the result is
an `ApiError` carrying the status, the raw body text as message, and the
best-effort structured parse of that text — in particular an unparsable error
body still yields an `ApiError` with empty details, never a failure of the
call itself. -/
theorem process_response_status_classification {R : Type} (dec : Json → Except String R)
    (resp : HttpResponse) (t : String) (hb : resp.body = .ok t) :
    (isSuccessStatus resp.status = true → ∀ v, decodeBody dec t = .ok v →
      process_response dec resp = .ok v)
    ∧ (isSuccessStatus resp.status = false →
      process_response dec resp = .error (.ApiError resp.status t (parseApiError t)))
    ∧ (isSuccessStatus resp.status = false → parseApiError t = none →
      process_response dec resp = .error (.ApiError resp.status t none)) := by
  obtain ⟨st, body⟩ := resp
  simp only at hb
  subst hb
  refine ⟨fun hs v hv => ?_, fun hs => ?_, fun hs hp => ?_⟩
  · simp [process_response, hs, hv]
  · simp [process_response, hs]
  · simp [process_response, hs, hp]

/-- C2 (witness): a 402 response whose body is an HTML fragment yields an
`ApiError` with the raw text as message and no structured details. -/
theorem process_response_status_classification_witness :
    process_response Payment.fromJson ⟨402, Except.ok "<html>"⟩ =
      Except.error (.ApiError 402 "<html>" none) :=
  (process_response_status_classification Payment.fromJson ⟨402, Except.ok "<html>"⟩
    "<html>" rfl).2.2 (by decide) rfl

/-- C10: when the non-2xx error path fails to read the body, the operation
still returns an `ApiError` for that status, with the fixed fallback message
and no structured details — the classification is the same as for a readable
body. -/
theorem process_response_body_read_failure {R : Type} (dec : Json → Except String R)
    (status : Nat) (h : isSuccessStatus status = false) :
    process_response dec ⟨status, .error ()⟩ =
      .error (.ApiError status readBodyFailedMsg none)
    ∧ (∀ t, process_response dec ⟨status, .ok t⟩ =
        .error (.ApiError status t (parseApiError t))) := by
  have hp : parseApiError readBodyFailedMsg = none := rfl
  constructor
  · simp [process_response, h, hp]
  · intro t
    simp [process_response, h]

/-- C10 (witness): a 500 response whose body read fails still yields the
`ApiError` with the fallback message. -/
theorem process_response_body_read_failure_witness :
    process_response Payment.fromJson ⟨500, Except.error ()⟩ =
      Except.error (.ApiError 500 readBodyFailedMsg none) :=
  (process_response_body_read_failure Payment.fromJson 500 (by decide)).1

/-- C8 (counterexample): a 200 response whose body fails to decode is mapped
to the `Reqwest` (network/HTTP) error variant, not to the `Serde`
serialization variant, contrary to the claim. -/
theorem process_response_decode_failure_cex :
    process_response Payment.fromJson ⟨200, Except.ok "nope"⟩ =
      Except.error (YooKassaError.Reqwest "error decoding response body")
    ∧ isSerdeError (process_response Payment.fromJson ⟨200, Except.ok "nope"⟩) = false :=
  ⟨rfl, rfl⟩

/-- C8 (amended): a 2xx response whose body fails to decode yields the
`Reqwest` error variant carrying the decode failure — distinct from the
`ApiError` variant and from the `Serde` variant. -/
theorem process_response_decode_failure_is_reqwest {R : Type}
    (dec : Json → Except String R) (resp : HttpResponse) (t e : String)
    (hs : isSuccessStatus resp.status = true) (hb : resp.body = .ok t)
    (hd : decodeBody dec t = .error e) :
    process_response dec resp = .error (.Reqwest e)
    ∧ (∀ st m d, process_response dec resp ≠ .error (.ApiError st m d))
    ∧ (∀ m, process_response dec resp ≠ .error (.Serde m)) := by
  obtain ⟨st, body⟩ := resp
  simp only at hb hs
  subst hb
  have hmain : process_response dec ⟨st, Except.ok t⟩ = .error (.Reqwest e) := by
    simp [process_response, hs, hd]
  refine ⟨hmain, fun st' m d => ?_, fun m => ?_⟩ <;> simp [hmain]

/-- C8 (witness): the amended theorem at a concrete undecodable 200
response. -/
theorem process_response_decode_failure_is_reqwest_witness :
    process_response Payment.fromJson ⟨200, Except.ok "nope"⟩ =
      Except.error (YooKassaError.Reqwest "error decoding response body") :=
  (process_response_decode_failure_is_reqwest Payment.fromJson ⟨200, Except.ok "nope"⟩
    "nope" "error decoding response body" (by decide) rfl rfl).1

/-- A syntactically complete payment JSON object except that the required
`status` member is absent. -/
def paymentJsonNoStatus : List (String × Json) :=
  [("id", Json.str "pay_1"),
   ("amount", Json.obj [("value", Json.str "10.00"), ("currency", Json.str "RUB")]),
   ("recipient", Json.obj [("account_id", Json.str "acc"), ("gateway_id", Json.str "gw")]),
   ("created_at", Json.str "2024-01-01T00:00:00.000Z"),
   ("test", Json.bool true), ("paid", Json.bool false), ("refundable", Json.bool false)]

/-- A complete payment JSON object carrying exactly the required members. -/
def paymentJsonFull : List (String × Json) :=
  [("id", Json.str "pay_1"), ("status", Json.str "pending"),
   ("amount", Json.obj [("value", Json.str "10.00"), ("currency", Json.str "RUB")]),
   ("recipient", Json.obj [("account_id", Json.str "acc"), ("gateway_id", Json.str "gw")]),
   ("created_at", Json.str "2024-01-01T00:00:00.000Z"),
   ("test", Json.bool true), ("paid", Json.bool false), ("refundable", Json.bool false)]

def examplePayment : Payment :=
  ⟨"pay_1", PaymentStatus.Pending, ⟨"10.00", "RUB"⟩, none, none, ⟨"acc", "gw"⟩, none,
   none, "2024-01-01T00:00:00.000Z", none, none, true, false, false, none, none,
   none, none, none⟩

/-- C3: a JSON object decodes to a `Payment` only if all eight required
members (`id`, `status`, `amount`, `recipient`, `created_at`, `test`, `paid`,
`refundable`) are present — and an object lacking `status` fails with a
missing-field decode error instead of producing a defaulted `Payment`. -/
theorem payment_decode_requires_fields :
    (∀ (l : List (String × Json)) (p : Payment),
      Payment.fromJson (Json.obj l) = Except.ok p →
        (l.lookup "id").isSome = true ∧ (l.lookup "status").isSome = true
        ∧ (l.lookup "amount").isSome = true ∧ (l.lookup "recipient").isSome = true
        ∧ (l.lookup "created_at").isSome = true ∧ (l.lookup "test").isSome = true
        ∧ (l.lookup "paid").isSome = true ∧ (l.lookup "refundable").isSome = true)
    ∧ Payment.fromJson (Json.obj paymentJsonNoStatus) =
        Except.error ("missing field " ++ "status") := by
  constructor
  · intro l p h
    simp only [Payment.fromJson] at h
    obtain ⟨v1, h1, h⟩ := exists_of_bind_ok h
    obtain ⟨v2, h2, h⟩ := exists_of_bind_ok h
    obtain ⟨v3, h3, h⟩ := exists_of_bind_ok h
    obtain ⟨v4, h4, h⟩ := exists_of_bind_ok h
    obtain ⟨v5, h5, h⟩ := exists_of_bind_ok h
    obtain ⟨v6, h6, h⟩ := exists_of_bind_ok h
    obtain ⟨v7, h7, h⟩ := exists_of_bind_ok h
    obtain ⟨v8, h8, h⟩ := exists_of_bind_ok h
    obtain ⟨v9, h9, h⟩ := exists_of_bind_ok h
    obtain ⟨v10, h10, h⟩ := exists_of_bind_ok h
    obtain ⟨v11, h11, h⟩ := exists_of_bind_ok h
    obtain ⟨v12, h12, h⟩ := exists_of_bind_ok h
    obtain ⟨v13, h13, h⟩ := exists_of_bind_ok h
    obtain ⟨v14, h14, h⟩ := exists_of_bind_ok h
    exact ⟨reqField_ok_lookup_isSome h1, reqField_ok_lookup_isSome h2,
      reqField_ok_lookup_isSome h3, reqField_ok_lookup_isSome h6,
      reqField_ok_lookup_isSome h9, reqField_ok_lookup_isSome h12,
      reqField_ok_lookup_isSome h13, reqField_ok_lookup_isSome h14⟩
  · rfl

/-- C3 (witness): the requirement theorem applied to a complete payment
object that does decode. -/
theorem payment_decode_requires_fields_witness :
    (paymentJsonFull.lookup "status").isSome = true
    ∧ (paymentJsonFull.lookup "amount").isSome = true :=
  ⟨(payment_decode_requires_fields.1 paymentJsonFull examplePayment rfl).2.1,
   (payment_decode_requires_fields.1 paymentJsonFull examplePayment rfl).2.2.1⟩
